import Mathlib

/-!
Verification of `hamiltonian_evolution_exponentiation.ipynb`.

The notebook is a linear sequence of cells:
  * cell 1 constructs `pauli_list`, a list of two `PauliTerm`s;
  * cell 2 defines the quantum function `main` (which allocates a 4-qubit
    register `qba` and calls `exponentiation_with_depth_constraint` on an
    inline four-term Pauli operator), then runs
    `qmod = create_model(main, out_file="hamiltonian_evolution_exponentiation")`
    and `qprog = synthesize(qmod)`.

We embed the data model (`Pauli`, `PauliTerm`) and the notebook's statements
as a trace, and prove the stated properties of that trace.  The decimal
coefficient literals of the source (`0.1`, `0.2`, `0.4`, `0.05`) are embedded
as the exact rationals they denote, written as normalized `Rat` structure
literals so that they are kernel-computable; the lemmas `c01_eq` … `c005_eq`
certify that each equals the corresponding decimal literal of `ℚ`.
-/

/-- The single-qubit Pauli labels, as in the `classiq` `Pauli` enum. -/
inductive Pauli where
  | I
  | X
  | Y
  | Z
deriving DecidableEq

/-- A weighted Pauli string: `PauliTerm(pauli=..., coefficient=...)` in the
source.  The `pauli` field is the ordered list of single-qubit labels and
`coefficient` its (real, embedded as rational) weight. -/
structure PauliTerm where
  pauli : List Pauli
  coefficient : ℚ
deriving DecidableEq

/-- The source literal `0.1`, as the exact rational 1/10. -/
def c01 : ℚ := ⟨1, 10, by decide, by decide⟩

/-- The source literal `0.2`, as the exact rational 1/5. -/
def c02 : ℚ := ⟨1, 5, by decide, by decide⟩

/-- The source literal `0.4`, as the exact rational 2/5. -/
def c04 : ℚ := ⟨2, 5, by decide, by decide⟩

/-- The source literal `0.05`, as the exact rational 1/20. -/
def c005 : ℚ := ⟨1, 20, by decide, by decide⟩

/-- The two-term list built in the first code cell:
`[PauliTerm(pauli=[Pauli.I, Pauli.Z], coefficient=0.1),
  PauliTerm(pauli=[Pauli.X, Pauli.Y], coefficient=0.2)]`. -/
def pauli_list : List PauliTerm :=
  [⟨[Pauli.I, Pauli.Z], c01⟩,
   ⟨[Pauli.X, Pauli.Y], c02⟩]

/-- The four-term Pauli operator built inline in `main`. -/
def mainPauliOperator : List PauliTerm :=
  [⟨[Pauli.X, Pauli.X, Pauli.I, Pauli.I], c01⟩,
   ⟨[Pauli.Y, Pauli.Y, Pauli.I, Pauli.I], c02⟩,
   ⟨[Pauli.Z, Pauli.Z, Pauli.Y, Pauli.X], c04⟩,
   ⟨[Pauli.I, Pauli.I, Pauli.I, Pauli.X], c04⟩]

/-- The `evolution_coefficient=0.05` argument of the call in `main`. -/
def mainEvolutionCoefficient : ℚ := c005

/-- The `max_depth=50` argument of the call in `main`. -/
def mainMaxDepth : Int := 50

/-- A statement inside a quantum function body.  `main` contains exactly an
allocation of a register and one call to the external primitive
`exponentiation_with_depth_constraint`. -/
inductive QStmt where
  | allocate (width : Nat) (reg : String)
  | exponentiation_with_depth_constraint
      (pauli_operator : List PauliTerm) (evolution_coefficient : ℚ)
      (max_depth : Int) (qbv : String)
deriving DecidableEq

/-- The body of `main`, in source order: `allocate(4, qba)` followed by the
call `exponentiation_with_depth_constraint(..., evolution_coefficient=0.05,
max_depth=50, qbv=qba)`. -/
def mainBody : List QStmt :=
  [QStmt.allocate 4 "qba",
   QStmt.exponentiation_with_depth_constraint mainPauliOperator
     mainEvolutionCoefficient mainMaxDepth "qba"]

/-- A top-level statement of the notebook. -/
inductive TopStmt where
  | assignPauliList (name : String) (terms : List PauliTerm)
  | defineMain (body : List QStmt)
  | create_model (entry : String) (out_file : Option String) (result : String)
  | synthesize (model : String) (result : String)
deriving DecidableEq

/-- The notebook's top-level trace, in cell/source order. -/
def notebook : List TopStmt :=
  [TopStmt.assignPauliList "pauli_list" pauli_list,
   TopStmt.defineMain mainBody,
   TopStmt.create_model "main" (some "hamiltonian_evolution_exponentiation") "qmod",
   TopStmt.synthesize "qmod" "qprog"]

/-- The quantum statements contained in a top-level statement. -/
def TopStmt.qstmts : TopStmt → List QStmt
  | TopStmt.defineMain b => b
  | _ => []

/-- All quantum statements executed anywhere in the notebook. -/
def notebookQStmts : List QStmt :=
  (notebook.map TopStmt.qstmts).flatten

/-- Whether a quantum statement is a call to
`exponentiation_with_depth_constraint`. -/
def QStmt.isExpCall : QStmt → Bool
  | QStmt.exponentiation_with_depth_constraint _ _ _ _ => true
  | _ => false

/-- Whether a quantum statement is an `allocate`. -/
def QStmt.isAllocate : QStmt → Bool
  | QStmt.allocate _ _ => true
  | _ => false

/-- The number of times a given list of Pauli terms is passed, anywhere in
the notebook, as the operator argument of the external exponentiation
function. -/
def passCount (ts : List PauliTerm) : Nat :=
  (notebookQStmts.filter fun s =>
    match s with
    | QStmt.exponentiation_with_depth_constraint op _ _ _ => decide (op = ts)
    | _ => false).length

/-- The width with which a register name is allocated in a body (the first
`allocate` for that name, if any). -/
def allocatedWidth (body : List QStmt) (reg : String) : Option Nat :=
  (body.filterMap fun s =>
    match s with
    | QStmt.allocate w r => if r = reg then some w else none
    | _ => none).head?

/-- Whether a top-level statement is the `create_model` call. -/
def TopStmt.isCreateModel : TopStmt → Bool
  | TopStmt.create_model _ _ _ => true
  | _ => false

/-- Whether a top-level statement is the `synthesize` call. -/
def TopStmt.isSynthesize : TopStmt → Bool
  | TopStmt.synthesize _ _ => true
  | _ => false

/-- The model variable consumed by a `synthesize` statement. -/
def TopStmt.synthArg : TopStmt → Option String
  | TopStmt.synthesize m _ => some m
  | _ => none

/-- The variable a `create_model` statement binds its result to. -/
def TopStmt.createModelResult : TopStmt → Option String
  | TopStmt.create_model _ _ r => some r
  | _ => none

/-- The `out_file` argument of a `create_model` statement, when present. -/
def TopStmt.outFile : TopStmt → Option String
  | TopStmt.create_model _ (some f) _ => some f
  | _ => none

/-- The coefficient a list of Pauli terms assigns to a given Pauli string:
the sum of the coefficients of its terms whose label sequence is that
string.  This is the formal weighted sum the list denotes (the Pauli strings
are linearly independent, so this function determines the Hamiltonian
`H = Σ_i c_i σ_i`). -/
def coeffOf (op : List PauliTerm) (s : List Pauli) : ℚ :=
  ((op.filter fun t => decide (t.pauli = s)).map PauliTerm.coefficient).sum

/-- Whether each term passed at an exponentiation call site has as many
Pauli labels as the width allocated, in the same body, for the register the
call acts on. -/
def QStmt.widthsMatch (body : List QStmt) : QStmt → Bool
  | QStmt.exponentiation_with_depth_constraint op _ _ r =>
      op.all fun t => decide (allocatedWidth body r = some t.pauli.length)
  | _ => true

/-- Every exponentiation call site of the notebook satisfies
`QStmt.widthsMatch` with respect to its enclosing body. -/
def callSiteWidthsMatch : Bool :=
  notebook.all fun top => top.qstmts.all (QStmt.widthsMatch top.qstmts)

/-- Whether a top-level statement binds a list of Pauli terms to the given
variable name. -/
def TopStmt.assignsListNamed (n : String) : TopStmt → Bool
  | TopStmt.assignPauliList m _ => m == n
  | _ => false

/-- Every exponentiation call site of the notebook passes a non-negative
`max_depth`. -/
def expCallDepthsNonneg : Bool :=
  notebookQStmts.all fun s =>
    match s with
    | QStmt.exponentiation_with_depth_constraint _ _ d _ => decide (0 ≤ d)
    | _ => true

/-- The four standard single-qubit Pauli labels. -/
def standardLabels : List Pauli := [Pauli.I, Pauli.X, Pauli.Y, Pauli.Z]

/-- `c01` is the decimal literal `0.1` of the source. -/
theorem c01_eq : c01 = 0.1 := by
  rw [c01, Rat.mk'_eq_divInt, Rat.divInt_eq_div]; norm_num

/-- `c02` is the decimal literal `0.2` of the source. -/
theorem c02_eq : c02 = 0.2 := by
  rw [c02, Rat.mk'_eq_divInt, Rat.divInt_eq_div]; norm_num

/-- `c04` is the decimal literal `0.4` of the source. -/
theorem c04_eq : c04 = 0.4 := by
  rw [c04, Rat.mk'_eq_divInt, Rat.divInt_eq_div]; norm_num

/-- `c005` is the decimal literal `0.05` of the source. -/
theorem c005_eq : c005 = 0.05 := by
  rw [c005, Rat.mk'_eq_divInt, Rat.divInt_eq_div]; norm_num

/-- Claim C2: at every call site of `exponentiation_with_depth_constraint`,
each passed term's list of Pauli labels is as long as the width of the qubit
register used there; in particular every term of the operator in `main` has
length 4 and `qba` is allocated with 4 qubits. -/
theorem c2_call_site_widths :
    callSiteWidthsMatch = true ∧
    mainPauliOperator.all (fun t => t.pauli.length == 4) = true ∧
    allocatedWidth mainBody "qba" = some 4 := by decide

/-- Claim C3, counterexample: the two-term `pauli_list` of the first code
cell is passed to the external exponentiation function zero times, not
exactly once as claimed. -/
theorem c3_pauli_list_never_passed :
    passCount pauli_list = 0 ∧ passCount pauli_list ≠ 1 := by decide

/-- Claim C3, amended: each constructed list of Pauli terms is passed at
most once to the external exponentiation function and is never rebound or
written to a file afterwards: the four-term list of `main` is passed exactly
once, `pauli_list` is constructed (bound exactly once) and never passed, and
the only statement with a file output is the `create_model` call, which
takes the model rather than a Pauli list. -/
theorem c3_construction_only_lifecycle :
    passCount mainPauliOperator = 1 ∧
    passCount pauli_list = 0 ∧
    (notebook.filter (TopStmt.assignsListNamed "pauli_list")).length = 1 ∧
    ((notebook.filter fun s => (TopStmt.outFile s).isSome).all
      TopStmt.isCreateModel) = true := by decide

/-- Claim C4: `create_model` binds its result to `qmod`, the sole
`synthesize` call consumes exactly `qmod`, and the synthesis statement is a
distinct, later statement (index 3) than the one producing the model
(index 2). -/
theorem c4_model_consumed_by_separate_synthesis :
    notebook.findIdx? TopStmt.isCreateModel = some 2 ∧
    notebook.findIdx? TopStmt.isSynthesize = some 3 ∧
    notebook.filterMap TopStmt.createModelResult = ["qmod"] ∧
    notebook.filterMap TopStmt.synthArg = ["qmod"] := by decide

/-- Claim C5: the weighted sum denoted by a list of Pauli terms is invariant
under any permutation of the list: permuted lists assign the same total
coefficient to every Pauli string. -/
theorem c5_semantics_perm_invariant (l l' : List PauliTerm) (h : l.Perm l')
    (s : List Pauli) : coeffOf l s = coeffOf l' s :=
  List.Perm.sum_eq ((List.Perm.filter _ h).map _)

/-- Witness for C5 at a concrete input: reversing `pauli_list` leaves the
coefficient of the Pauli string XY unchanged. -/
theorem c5_witness :
    coeffOf pauli_list [Pauli.X, Pauli.Y] =
      coeffOf pauli_list.reverse [Pauli.X, Pauli.Y] :=
  c5_semantics_perm_invariant pauli_list pauli_list.reverse
    (List.reverse_perm pauli_list).symm [Pauli.X, Pauli.Y]

/-- Claim C6: in `main`, the allocation `allocate(4, qba)` is the first
statement and the call to `exponentiation_with_depth_constraint` the second,
and that call is the one and only call to the high-level function in the
whole notebook. -/
theorem c6_allocate_then_single_exp_call :
    mainBody.findIdx? QStmt.isAllocate = some 0 ∧
    mainBody.findIdx? QStmt.isExpCall = some 1 ∧
    (notebookQStmts.filter QStmt.isExpCall).length = 1 ∧
    mainBody.head? = some (QStmt.allocate 4 "qba") := by decide

/-- Claim C7: at every exponentiation call site the depth bound is a
non-negative integer, and in `main` the arguments are `max_depth = 50` and
`evolution_coefficient = 0.05`. -/
theorem c7_evolution_parameter_sanity :
    expCallDepthsNonneg = true ∧ mainMaxDepth = 50 ∧ 0 ≤ mainMaxDepth ∧
    mainEvolutionCoefficient = 0.05 :=
  ⟨by decide, by decide, by decide, c005_eq⟩

/-- Claim C8: every Pauli label occurring in any term of `pauli_list` or of
the operator built in `main` is one of the four standard labels I, X, Y, Z
(each term being, by the `PauliTerm` structure, such a label sequence
together with exactly one coefficient). -/
theorem c8_labels_in_standard_set :
    ((pauli_list ++ mainPauliOperator).all fun t =>
      t.pauli.all fun p => decide (p ∈ standardLabels)) = true := by decide

/-- Claim C9: the coefficients actually constructed are exactly the real
literals 0.1, 0.2, 0.4, 0.4 in `main` and 0.1, 0.2 in `pauli_list`, and
every one of them lies in the interval (0, 1]. -/
theorem c9_coefficient_values :
    mainPauliOperator.map PauliTerm.coefficient = [0.1, 0.2, 0.4, 0.4] ∧
    pauli_list.map PauliTerm.coefficient = [0.1, 0.2] ∧
    ((pauli_list ++ mainPauliOperator).all fun t =>
      decide (0 < t.coefficient ∧ t.coefficient ≤ 1)) = true := by
  refine ⟨?_, ?_, by decide⟩ <;>
    simp [mainPauliOperator, pauli_list, c01_eq, c02_eq, c04_eq]

/-- Claim C10: the `create_model` call carries
`out_file="hamiltonian_evolution_exponentiation"` (the sole file output in
the notebook), and it occurs at index 2, before the `synthesize` call at
index 3. -/
theorem c10_model_written_before_synthesis :
    notebook.filterMap TopStmt.outFile =
      ["hamiltonian_evolution_exponentiation"] ∧
    notebook.findIdx? (fun s => (TopStmt.outFile s).isSome) = some 2 ∧
    notebook.findIdx? TopStmt.isSynthesize = some 3 := by decide
